import Mathlib

/-!
Shallow embedding of `src/main.py` of the power-monitor repository.

Numeric values (amperages, thresholds, durations) and timestamps are
modelled as rationals (`ℚ`): Python floats are used only for ordered
comparison and subtraction here, never for rounding-sensitive arithmetic,
and `datetime` subtraction yields seconds via `total_seconds()`, so
timestamps are rational seconds.

Each branch of `PhaseDaemon.on_reading` in the source calls
`datetime.now()` up to twice; the embedding makes these clock reads
explicit parameters `t1 t2 : ℚ` — `t1` is the value returned by the first
`datetime.now()` call executed in the taken branch, `t2` the value
returned by the second (a branch that performs fewer reads ignores the
surplus parameters).  Instantiating `t1 = t2` recovers the run in which
the clock does not advance between the two reads.
-/

namespace PowerMonitor

/-- The `AlertLevel` `IntEnum` of `src/main.py` lines 20–32: members
NOMINAL, WARNING, CRITICAL with integer values 1, 2, 3 and payload fields
`emoji` and `repeat_interval`. -/
inductive AlertLevel
  | NOMINAL
  | WARNING
  | CRITICAL
deriving DecidableEq, Repr

/-- The integer value of each `IntEnum` member (1, 2, 3); `IntEnum`
comparisons (`<`, `>`) compare these values. -/
def AlertLevel.value : AlertLevel → Nat
  | .NOMINAL => 1
  | .WARNING => 2
  | .CRITICAL => 3

/-- The `.name` attribute of each enum member. -/
def AlertLevel.name : AlertLevel → String
  | .NOMINAL => "NOMINAL"
  | .WARNING => "WARNING"
  | .CRITICAL => "CRITICAL"

/-- The `emoji` payload field. -/
def AlertLevel.emoji : AlertLevel → String
  | .NOMINAL => "🟢"
  | .WARNING => "🟠"
  | .CRITICAL => "🔴"

/-- The `repeat_interval` payload field: `None` for NOMINAL, 60 for
WARNING, 5 for CRITICAL (seconds). -/
def AlertLevel.repeat_interval : AlertLevel → Option ℚ
  | .NOMINAL => none
  | .WARNING => some 60
  | .CRITICAL => some 5

/-- The `NUMBER_NAMES` table of `src/main.py` line 17: the static channel-name
table, indices 0‥10. -/
def NUMBER_NAMES : List String :=
  ["zero", "one", "two", "three", "four", "five", "six", "seven",
   "eight", "nine", "ten"]

/-- Python list indexing `NUMBER_NAMES[i]` for an `int` index: indices
`0 ≤ i < len` read directly, `-len ≤ i < 0` read from the end, anything
else raises `IndexError` (modelled as `none`). -/
def numberName (i : Int) : Option String :=
  if 0 ≤ i then NUMBER_NAMES.get? i.toNat
  else if 0 ≤ (NUMBER_NAMES.length : Int) + i then
    NUMBER_NAMES.get? ((NUMBER_NAMES.length : Int) + i).toNat
  else none

/-- Stand-in for Python's fixed one-decimal formatting `f"{amperage:.1f}"`
applied to our rational model of the float value.  No claim depends on the
exact digits produced; the message theorems treat the rendered value
abstractly. -/
def fmt1 (q : ℚ) : String :=
  let n : Int := Rat.floor (q * 10 + 1 / 2)
  toString (n / 10) ++ "." ++ toString ((n % 10).natAbs)

/-- Body of the increase message (`src/main.py` lines 62–65) once the
channel name `nm` has been looked up in `NUMBER_NAMES`. -/
def incBody (nm : String) (new_level : AlertLevel) (amperage : ℚ) : String :=
  "Phase **" ++ nm.toUpper ++ "** increased :arrow_up: alert level to **" ++
    new_level.name ++ "** " ++ new_level.emoji ++ " (`" ++ fmt1 amperage ++ " A`)" ++
    (if new_level = AlertLevel.CRITICAL then " :warning:" else "")

/-- Body of the decrease message (`src/main.py` lines 74–76). -/
def decBody (nm : String) (new_level : AlertLevel) (amperage : ℚ) : String :=
  "Phase **" ++ nm.toUpper ++ "** decreased :arrow_down: alert level to " ++
    new_level.name ++ " " ++ new_level.emoji ++ " (`" ++ fmt1 amperage ++ " A`)"

/-- Body of the reminder message (`src/main.py` lines 84–86). -/
def stillBody (nm : String) (new_level : AlertLevel) (amperage : ℚ) : String :=
  "Phase **" ++ nm.toUpper ++ "** alert level is still **" ++
    new_level.name ++ "** " ++ new_level.emoji ++ " (`" ++ fmt1 amperage ++ " A`)"

/-- The rendered increase message; `none` models the `IndexError` raised
by `NUMBER_NAMES[self.phase]` when the phase is outside the table. -/
def increaseMessage (phase : Int) (new_level : AlertLevel) (amperage : ℚ) :
    Option String :=
  (numberName phase).map fun nm => incBody nm new_level amperage

/-- The rendered decrease message (same indexing behaviour). -/
def decreaseMessage (phase : Int) (new_level : AlertLevel) (amperage : ℚ) :
    Option String :=
  (numberName phase).map fun nm => decBody nm new_level amperage

/-- The rendered reminder message (same indexing behaviour). -/
def stillMessage (phase : Int) (new_level : AlertLevel) (amperage : ℚ) :
    Option String :=
  (numberName phase).map fun nm => stillBody nm new_level amperage

/-- The mutable state of one `PhaseDaemon` instance (`src/main.py`
lines 36–47): configuration fields fixed at construction plus the three
mutable fields `alert_level`, `last_alert_repeat`, `last_alert_increase`. -/
structure PhaseDaemon where
  phase : Int
  warning_threshold : ℚ
  critical_threshold : ℚ
  alert_decrease_delay : ℚ
  topic : String
  alert_level : AlertLevel
  last_alert_repeat : ℚ
  last_alert_increase : ℚ
deriving DecidableEq, Repr

/-- Constructor `PhaseDaemon.__init__` (`src/main.py` lines 36–47).  The constructor
calls `datetime.now()` twice — once for `last_alert_repeat` (line 45) and
once for `last_alert_increase` (line 47); the two reads are the explicit
parameters `t1`, `t2`.  `topic` is `TOPIC_FORMAT.format(phase=phase)`:
the configured template with the placeholder replaced by the phase
number. -/
def mkPhaseDaemon (phase : Int) (warning_threshold critical_threshold : ℚ)
    (alert_decrease_delay : ℚ) (topic_format : String) (t1 t2 : ℚ) :
    PhaseDaemon :=
  { phase := phase
    warning_threshold := warning_threshold
    critical_threshold := critical_threshold
    alert_decrease_delay := alert_decrease_delay
    topic := topic_format.replace "\x7bphase\x7d" (toString phase)
    alert_level := AlertLevel.NOMINAL
    last_alert_repeat := t1
    last_alert_increase := t2 }

/-- Method `PhaseDaemon.calculate_alert_level` (`src/main.py` lines 88–94). -/
def calculate_alert_level (s : PhaseDaemon) (amperage : ℚ) : AlertLevel :=
  if amperage > s.critical_threshold then AlertLevel.CRITICAL
  else if amperage > s.warning_threshold then AlertLevel.WARNING
  else AlertLevel.NOMINAL

/-- Method `PhaseDaemon.on_reading` (`src/main.py` lines 52–86).  Returns the
updated state and the list of messages passed to `send_discord_message`
during the call (each entry is `none` exactly when the message f-string
raised `IndexError` on the name-table lookup).

Clock reads: the increase branch reads `datetime.now()` at lines 59 and
60 (`t1` into `last_alert_repeat`, `t2` into `last_alert_increase`); the
decrease branch reads it at line 68 for the comparison (`t1`) and, when
the delay has elapsed, again at line 72 for `last_alert_repeat` (`t2`);
the steady branch reads it at line 80 for the comparison (`t1`) and, when
a reminder fires, again at line 82 for `last_alert_repeat` (`t2`). -/
def on_reading (s : PhaseDaemon) (amperage : ℚ) (t1 t2 : ℚ) :
    PhaseDaemon × List (Option String) :=
  if (calculate_alert_level s amperage).value > s.alert_level.value then
    ({ s with alert_level := calculate_alert_level s amperage
              last_alert_repeat := t1
              last_alert_increase := t2 },
     [increaseMessage s.phase (calculate_alert_level s amperage) amperage])
  else if (calculate_alert_level s amperage).value < s.alert_level.value then
    if t1 - s.last_alert_increase > s.alert_decrease_delay then
      ({ s with alert_level := calculate_alert_level s amperage
                last_alert_repeat := t2 },
       [decreaseMessage s.phase (calculate_alert_level s amperage) amperage])
    else (s, [])
  else
    match s.alert_level.repeat_interval with
    | some interval =>
        if t1 - s.last_alert_repeat > interval then
          ({ s with last_alert_repeat := t2 },
           [stillMessage s.phase (calculate_alert_level s amperage) amperage])
        else (s, [])
    | none => (s, [])

/-- Handler `on_message` (`src/main.py` lines 115–120), after the payload has been
parsed to a float: iterate over the registered monitors in order and run
`on_reading` on every one whose topic equals the message topic (the loop
has no `break`).  Each invoked monitor performs its own fresh clock
reads, supplied by `clock`: the monitor at position `i` of the list uses
the pair `clock i`.  Returns the updated monitor list and all messages
sent, in emission order. -/
def on_message (phases : List PhaseDaemon) (topic : String) (payload : ℚ)
    (clock : Nat → ℚ × ℚ) : List PhaseDaemon × List (Option String) :=
  match phases with
  | [] => ([], [])
  | p :: rest =>
      let hd := if p.topic = topic
        then on_reading p payload (clock 0).1 (clock 0).2
        else (p, [])
      let tl := on_message rest topic payload (fun n => clock (n + 1))
      (hd.1 :: tl.1, hd.2 ++ tl.2)

/-- The `phases` registry (`src/main.py` lines 97–100): three monitors
with phases 1, 2, 3, sharing the configured thresholds and decrease
delay; each constructor performs its own two clock reads. -/
def phases (warning_amperage critical_amperage alert_decrease_delay : ℚ)
    (topic_format : String) (clock : Nat → ℚ × ℚ) : List PhaseDaemon :=
  (List.range 3).map fun (i : Nat) =>
    mkPhaseDaemon (Int.ofNat i + 1) warning_amperage critical_amperage
      alert_decrease_delay topic_format (clock i).1 (clock i).2

/-! ### Concrete states used by witnesses and counterexamples -/

/-- A freshly constructed phase-1 monitor: thresholds 10/20 A, decrease
delay 30 s, constructed at time 0 (both constructor clock reads 0). -/
def exampleState : PhaseDaemon :=
  mkPhaseDaemon 1 10 20 30 "tp/\x7bphase\x7d" 0 0

/-- State `exampleState` after it has escalated to WARNING at time 0. -/
def warningState : PhaseDaemon :=
  { exampleState with alert_level := AlertLevel.WARNING }

/-- A monitor constructed with phase number 11, one past the last index
of `NUMBER_NAMES`. -/
def phase11State : PhaseDaemon :=
  mkPhaseDaemon 11 10 20 30 "tp/\x7bphase\x7d" 0 0

/-! ### Theorems -/

/-- Claim C2: when the reading classifies strictly above the current
level, `on_reading` applies the escalation immediately and
unconditionally — for every `now`, with no condition on elapsed time —
setting `alert_level` to the new level, resetting both `last_alert_repeat`
and `last_alert_increase` to `now`, and emitting exactly one increase
notification. -/
theorem increase_applied_immediately (s : PhaseDaemon) (v now : ℚ)
    (h : (calculate_alert_level s v).value > s.alert_level.value) :
    on_reading s v now now =
      ({ s with alert_level := calculate_alert_level s v
                last_alert_repeat := now
                last_alert_increase := now },
       [increaseMessage s.phase (calculate_alert_level s v) v]) := by
  unfold on_reading
  rw [if_pos h]

/-- Witness for C2: from `warningState` (level WARNING), the reading 25 A
classifies to CRITICAL and escalates at time 1. -/
theorem increase_applied_immediately_witness :
    ((calculate_alert_level warningState 25).value >
        warningState.alert_level.value)
    ∧ on_reading warningState 25 1 1 =
        ({ warningState with alert_level := calculate_alert_level warningState 25
                             last_alert_repeat := 1
                             last_alert_increase := 1 },
         [increaseMessage warningState.phase
            (calculate_alert_level warningState 25) 25]) :=
  ⟨by decide, increase_applied_immediately warningState 25 1 (by decide)⟩

/-- Claim C3: with `warning_threshold < critical_threshold`,
classification is total and deterministic with strict comparators —
`v > critical` gives CRITICAL, `warning < v ≤ critical` gives WARNING,
`v ≤ warning` gives NOMINAL — and the enum values order the levels
NOMINAL < WARNING < CRITICAL. -/
theorem classification_thresholds (s : PhaseDaemon) (v : ℚ)
    (h : s.warning_threshold < s.critical_threshold) :
    (v > s.critical_threshold → calculate_alert_level s v = AlertLevel.CRITICAL)
    ∧ (s.warning_threshold < v → v ≤ s.critical_threshold →
        calculate_alert_level s v = AlertLevel.WARNING)
    ∧ (v ≤ s.warning_threshold → calculate_alert_level s v = AlertLevel.NOMINAL)
    ∧ AlertLevel.NOMINAL.value < AlertLevel.WARNING.value
    ∧ AlertLevel.WARNING.value < AlertLevel.CRITICAL.value := by
  refine ⟨fun hc => ?_, fun hw hc => ?_, fun hn => ?_, by decide, by decide⟩
  · unfold calculate_alert_level
    rw [if_pos hc]
  · unfold calculate_alert_level
    rw [if_neg (by linarith : ¬ v > s.critical_threshold), if_pos hw]
  · unfold calculate_alert_level
    rw [if_neg (by linarith : ¬ v > s.critical_threshold),
        if_neg (by linarith : ¬ v > s.warning_threshold)]

/-- Witness for C3: `exampleState` has thresholds 10 < 20; readings of
25, 15 and 5 A classify to CRITICAL, WARNING and NOMINAL respectively,
and the enum values are ordered. -/
theorem classification_thresholds_witness :
    (exampleState.warning_threshold < exampleState.critical_threshold)
    ∧ calculate_alert_level exampleState 25 = AlertLevel.CRITICAL
    ∧ calculate_alert_level exampleState 15 = AlertLevel.WARNING
    ∧ calculate_alert_level exampleState 5 = AlertLevel.NOMINAL
    ∧ AlertLevel.NOMINAL.value < AlertLevel.WARNING.value
    ∧ AlertLevel.WARNING.value < AlertLevel.CRITICAL.value :=
  ⟨by decide,
    (classification_thresholds exampleState 25 (by decide)).1 (by decide),
    (classification_thresholds exampleState 15 (by decide)).2.1 (by decide)
      (by decide),
    (classification_thresholds exampleState 5 (by decide)).2.2.1 (by decide),
    (classification_thresholds exampleState 15 (by decide)).2.2.2.1,
    (classification_thresholds exampleState 15 (by decide)).2.2.2.2⟩

/-- Claim C1: when the reading classifies strictly below the current
level, the de-escalation is applied iff `now - last_alert_increase`
strictly exceeds the decrease delay; when applied, `alert_level` becomes
the new level, `last_alert_repeat` is set to `now`, `last_alert_increase`
is left unchanged, and exactly one decrease notification is emitted; when
not applied, the state is unchanged and nothing is emitted. -/
theorem decrease_gated_by_delay (s : PhaseDaemon) (v now : ℚ)
    (h : (calculate_alert_level s v).value < s.alert_level.value) :
    (now - s.last_alert_increase > s.alert_decrease_delay →
       on_reading s v now now =
         ({ s with alert_level := calculate_alert_level s v
                   last_alert_repeat := now },
          [decreaseMessage s.phase (calculate_alert_level s v) v]))
    ∧ (¬ now - s.last_alert_increase > s.alert_decrease_delay →
       on_reading s v now now = (s, [])) := by
  have hA : ¬ (calculate_alert_level s v).value > s.alert_level.value := by
    omega
  constructor
  · intro hd
    unfold on_reading
    rw [if_neg hA, if_pos h, if_pos hd]
  · intro hd
    unfold on_reading
    rw [if_neg hA, if_pos h, if_neg hd]

/-- Witness for C1: from `warningState` (WARNING since time 0, delay
30 s), the reading 5 A de-escalates at time 40 but is suppressed at
time 10. -/
theorem decrease_gated_by_delay_witness :
    ((calculate_alert_level warningState 5).value <
        warningState.alert_level.value)
    ∧ ((40 : ℚ) - warningState.last_alert_increase >
        warningState.alert_decrease_delay)
    ∧ on_reading warningState 5 40 40 =
        ({ warningState with alert_level := calculate_alert_level warningState 5
                             last_alert_repeat := 40 },
         [decreaseMessage warningState.phase
            (calculate_alert_level warningState 5) 5])
    ∧ (¬ (10 : ℚ) - warningState.last_alert_increase >
        warningState.alert_decrease_delay)
    ∧ on_reading warningState 5 10 10 = (warningState, []) :=
  ⟨by decide,
    by norm_num [warningState, exampleState, mkPhaseDaemon],
    (decrease_gated_by_delay warningState 5 40 (by decide)).1
      (by norm_num [warningState, exampleState, mkPhaseDaemon]),
    by norm_num [warningState, exampleState, mkPhaseDaemon],
    (decrease_gated_by_delay warningState 5 10 (by decide)).2
      (by norm_num [warningState, exampleState, mkPhaseDaemon])⟩

/-- Claim C4: when the reading classifies to the current level, a
reminder fires iff the level has a non-null `repeat_interval` and
`now - last_alert_repeat` strictly exceeds it, in which case
`last_alert_repeat` is set to `now` and exactly one reminder notification
is emitted; otherwise the call changes nothing and emits nothing; in
particular a level with no interval — NOMINAL — never reminds. -/
theorem steady_reminder_cadence (s : PhaseDaemon) (v now : ℚ)
    (h : calculate_alert_level s v = s.alert_level) :
    (∀ interval : ℚ, s.alert_level.repeat_interval = some interval →
       (now - s.last_alert_repeat > interval →
          on_reading s v now now =
            ({ s with last_alert_repeat := now },
             [stillMessage s.phase (calculate_alert_level s v) v]))
       ∧ (¬ now - s.last_alert_repeat > interval →
          on_reading s v now now = (s, [])))
    ∧ (s.alert_level.repeat_interval = none → on_reading s v now now = (s, []))
    ∧ (s.alert_level = AlertLevel.NOMINAL → on_reading s v now now = (s, [])) := by
  have hA : ¬ (calculate_alert_level s v).value > s.alert_level.value := by
    rw [h]; omega
  have hB : ¬ (calculate_alert_level s v).value < s.alert_level.value := by
    rw [h]; omega
  refine ⟨fun interval hi => ⟨fun hr => ?_, fun hr => ?_⟩, fun hi => ?_,
    fun hn => ?_⟩
  · unfold on_reading
    rw [if_neg hA, if_neg hB]
    simp only [hi]
    rw [if_pos hr]
  · unfold on_reading
    rw [if_neg hA, if_neg hB]
    simp only [hi]
    rw [if_neg hr]
  · unfold on_reading
    rw [if_neg hA, if_neg hB]
    simp only [hi]
  · have hi : s.alert_level.repeat_interval = none := by
      rw [hn]
      rfl
    unfold on_reading
    rw [if_neg hA, if_neg hB]
    simp only [hi]

/-- Witness for C4: `warningState` holding at WARNING (interval 60 s)
reminds at time 61 but not at time 30, and `exampleState` holding at
NOMINAL emits nothing even at time 100. -/
theorem steady_reminder_cadence_witness :
    (calculate_alert_level warningState 15 = warningState.alert_level)
    ∧ (warningState.alert_level.repeat_interval = some 60)
    ∧ ((61 : ℚ) - warningState.last_alert_repeat > 60)
    ∧ on_reading warningState 15 61 61 =
        ({ warningState with last_alert_repeat := 61 },
         [stillMessage warningState.phase
            (calculate_alert_level warningState 15) 15])
    ∧ (¬ (30 : ℚ) - warningState.last_alert_repeat > 60)
    ∧ on_reading warningState 15 30 30 = (warningState, [])
    ∧ (warningState.alert_level = AlertLevel.NOMINAL → False)
    ∧ (exampleState.alert_level = AlertLevel.NOMINAL)
    ∧ on_reading exampleState 5 100 100 = (exampleState, []) :=
  ⟨by decide, by decide,
    by norm_num [warningState, exampleState, mkPhaseDaemon],
    ((steady_reminder_cadence warningState 15 61 (by decide)).1 60
      (by decide)).1 (by norm_num [warningState, exampleState, mkPhaseDaemon]),
    by norm_num [warningState, exampleState, mkPhaseDaemon],
    ((steady_reminder_cadence warningState 15 30 (by decide)).1 60
      (by decide)).2 (by norm_num [warningState, exampleState, mkPhaseDaemon]),
    by decide, by decide,
    (steady_reminder_cadence exampleState 5 100 (by decide)).2.2 (by decide)⟩

/-- Claim C5: a single `on_reading` call emits exactly zero or exactly
one notification, never more — for arbitrary clock reads. -/
theorem at_most_one_notification (s : PhaseDaemon) (v t1 t2 : ℚ) :
    (on_reading s v t1 t2).2.length = 0 ∨ (on_reading s v t1 t2).2.length = 1 := by
  unfold on_reading
  repeat' split
  all_goals simp

/-- State `exampleState` with its topic replaced by the literal `"shared"`
(used to exhibit dispatch behaviour without evaluating the topic
template). -/
def sharedState : PhaseDaemon :=
  { exampleState with topic := "shared" }

/-- Counterexample to C6: `on_reading` reads the clock more than once.
In the escalation branch the first `datetime.now()` call (line 59) feeds
`last_alert_repeat` and the second (line 60) feeds `last_alert_increase`,
so two runs from the same prior state, same value 15 A and same first
clock reading 0 end in different states when the second read differs —
the outcome is not a function of (prior state, value, one clock
reading). -/
theorem second_clock_read_observable :
    (on_reading exampleState 15 0 0).1.last_alert_increase = 0
    ∧ (on_reading exampleState 15 0 1).1.last_alert_increase = 1
    ∧ (0 : ℚ) ≠ 1 :=
  ⟨rfl, rfl, by norm_num⟩

/-- Claim C6 (amended): in a run where every clock read of the invocation
returns the same timestamp `now`, each timestamp field of the resulting
state is either `now` or its prior value — every comparison and every
assignment then uses that one timestamp, and the outcome is the
deterministic function `on_reading` of (prior state, value, `now`). -/
theorem single_timestamp_run (s : PhaseDaemon) (v now : ℚ) :
    ((on_reading s v now now).1.last_alert_repeat = now
       ∨ (on_reading s v now now).1.last_alert_repeat = s.last_alert_repeat)
    ∧ ((on_reading s v now now).1.last_alert_increase = now
       ∨ (on_reading s v now now).1.last_alert_increase = s.last_alert_increase) := by
  unfold on_reading
  repeat' split
  all_goals simp

/-- Counterexample to C7: for a monitor whose phase number 11 lies one
past the last index of `NUMBER_NAMES`, the increase notification's
rendering fails (`NUMBER_NAMES[11]` raises `IndexError`, modelled as
`none`) instead of printing the raw id. -/
theorem out_of_table_rendering_fails :
    (on_reading phase11State 15 0 0).2 = [(none : Option String)]
    ∧ increaseMessage 11 AlertLevel.WARNING 15 = none :=
  ⟨rfl, rfl⟩

/-- Claim C7 (amended): message rendering succeeds exactly for channel
ids in the Python index range `-11 ≤ id ≤ 10` of the static name table
(negative ids index from the end), and then uses the table's name; for
any id outside that range every rendering fails — the raw id is never
printed.  The three monitors the program constructs have phases 1–3, all
in range. -/
theorem rendering_table_range (i : Int) (lvl : AlertLevel) (amp : ℚ) :
    (-11 ≤ i → i ≤ 10 →
       ∃ nm, numberName i = some nm
         ∧ increaseMessage i lvl amp = some (incBody nm lvl amp)
         ∧ decreaseMessage i lvl amp = some (decBody nm lvl amp)
         ∧ stillMessage i lvl amp = some (stillBody nm lvl amp))
    ∧ (10 < i →
       increaseMessage i lvl amp = none
         ∧ decreaseMessage i lvl amp = none
         ∧ stillMessage i lvl amp = none)
    ∧ (i < -11 →
       increaseMessage i lvl amp = none
         ∧ decreaseMessage i lvl amp = none
         ∧ stillMessage i lvl amp = none) := by
  refine ⟨fun h1 h2 => ?_, fun h => ?_, fun h => ?_⟩
  · interval_cases i <;> exact ⟨_, rfl, rfl, rfl, rfl⟩
  · have hn : numberName i = none := by
      unfold numberName
      rw [if_pos (by omega : (0 : Int) ≤ i)]
      rw [List.get?_eq_none]
      simp [NUMBER_NAMES]
      omega
    simp [increaseMessage, decreaseMessage, stillMessage, hn]
  · have hn : numberName i = none := by
      unfold numberName
      rw [if_neg (by omega : ¬ (0 : Int) ≤ i),
          if_neg (by simp [NUMBER_NAMES]; omega)]
    simp [increaseMessage, decreaseMessage, stillMessage, hn]

/-- Witness for the amended C7: channel id 2 is in the table's range and
all three renderings use the table name for index 2. -/
theorem rendering_table_range_witness :
    ∃ nm, numberName 2 = some nm
      ∧ increaseMessage 2 AlertLevel.CRITICAL 25 =
          some (incBody nm AlertLevel.CRITICAL 25)
      ∧ decreaseMessage 2 AlertLevel.CRITICAL 25 =
          some (decBody nm AlertLevel.CRITICAL 25)
      ∧ stillMessage 2 AlertLevel.CRITICAL 25 =
          some (stillBody nm AlertLevel.CRITICAL 25) :=
  (rendering_table_range 2 AlertLevel.CRITICAL 25).1 (by norm_num) (by norm_num)

/-- Claim C8: a reading whose identifier matches no registered monitor's
topic invokes no monitor, changes no monitor state, and emits nothing —
`on_message` returns the monitor list unchanged and an empty message
list. -/
theorem unmatched_reading_dropped (ps : List PhaseDaemon) (topic : String)
    (payload : ℚ) (clock : Nat → ℚ × ℚ)
    (h : ∀ p ∈ ps, p.topic ≠ topic) :
    on_message ps topic payload clock = (ps, []) := by
  revert h
  induction ps generalizing clock with
  | nil => intro h; rfl
  | cons p rest ih =>
      intro h
      simp only [on_message]
      rw [if_neg (h p (List.mem_cons_self p rest))]
      rw [ih (fun n => clock (n + 1))
            (fun q hq => h q (List.mem_cons_of_mem p hq))]
      rfl

/-- Witness for C8: a registry holding one monitor with topic `"shared"`
drops a reading arriving on topic `"nomatch"`. -/
theorem unmatched_reading_dropped_witness :
    (∀ p ∈ [sharedState], p.topic ≠ "nomatch")
    ∧ on_message [sharedState] "nomatch" 25 (fun _ => (0, 0)) =
        ([sharedState], []) :=
  ⟨by decide,
    unmatched_reading_dropped [sharedState] "nomatch" 25 (fun _ => (0, 0))
      (by decide)⟩

/-- Claim C9: a freshly constructed monitor (both constructor clock reads
returning the construction time `now`) starts at NOMINAL with both
timestamps equal to `now`; consequently — for well-formed thresholds —
its first reading at or below the warning threshold is a complete no-op,
and its first reading above the warning threshold always emits one
increase notification and raises the level, whatever the clock reads of
that call are. -/
theorem constructed_monitor_initial_behaviour (phase : Int) (wt ct delay : ℚ)
    (tf : String) (now v : ℚ) (hwc : wt < ct) :
    (mkPhaseDaemon phase wt ct delay tf now now).alert_level = AlertLevel.NOMINAL
    ∧ (mkPhaseDaemon phase wt ct delay tf now now).last_alert_repeat = now
    ∧ (mkPhaseDaemon phase wt ct delay tf now now).last_alert_increase = now
    ∧ (v ≤ wt → ∀ t1 t2 : ℚ,
        on_reading (mkPhaseDaemon phase wt ct delay tf now now) v t1 t2 =
          (mkPhaseDaemon phase wt ct delay tf now now, []))
    ∧ (wt < v → ∀ t1 t2 : ℚ,
        (on_reading (mkPhaseDaemon phase wt ct delay tf now now) v t1 t2).2 =
          [increaseMessage phase
            (calculate_alert_level (mkPhaseDaemon phase wt ct delay tf now now) v) v]
        ∧ AlertLevel.NOMINAL.value <
            (on_reading (mkPhaseDaemon phase wt ct delay tf now now) v t1 t2).1.alert_level.value) := by
  refine ⟨rfl, rfl, rfl, fun hv t1 t2 => ?_, fun hv t1 t2 => ?_⟩
  · have hlv : calculate_alert_level (mkPhaseDaemon phase wt ct delay tf now now) v =
        AlertLevel.NOMINAL := by
      unfold calculate_alert_level mkPhaseDaemon
      rw [if_neg (by dsimp; linarith), if_neg (by dsimp; linarith)]
    unfold on_reading
    rw [hlv]
    rfl
  · have h2 : (calculate_alert_level (mkPhaseDaemon phase wt ct delay tf now now) v).value >
        (mkPhaseDaemon phase wt ct delay tf now now).alert_level.value := by
      unfold calculate_alert_level mkPhaseDaemon AlertLevel.value
      dsimp
      split_ifs with hc
      · simp [AlertLevel.value]
      · simp [AlertLevel.value]
    unfold on_reading
    rw [if_pos h2]
    exact ⟨rfl, h2⟩

/-- Witness for C9: with thresholds 10 < 20, construction at time 0 gives
NOMINAL with both timestamps 0; a first reading of 5 A is a no-op and a
first reading of 15 A emits the increase notification. -/
theorem constructed_monitor_initial_behaviour_witness :
    (mkPhaseDaemon 1 10 20 30 "tp" 0 0).alert_level = AlertLevel.NOMINAL
    ∧ (mkPhaseDaemon 1 10 20 30 "tp" 0 0).last_alert_repeat = 0
    ∧ (mkPhaseDaemon 1 10 20 30 "tp" 0 0).last_alert_increase = 0
    ∧ on_reading (mkPhaseDaemon 1 10 20 30 "tp" 0 0) 5 1 1 =
        (mkPhaseDaemon 1 10 20 30 "tp" 0 0, [])
    ∧ (on_reading (mkPhaseDaemon 1 10 20 30 "tp" 0 0) 15 1 1).2 =
        [increaseMessage 1
          (calculate_alert_level (mkPhaseDaemon 1 10 20 30 "tp" 0 0) 15) 15] :=
  ⟨(constructed_monitor_initial_behaviour 1 10 20 30 "tp" 0 5 (by norm_num)).1,
    (constructed_monitor_initial_behaviour 1 10 20 30 "tp" 0 5 (by norm_num)).2.1,
    (constructed_monitor_initial_behaviour 1 10 20 30 "tp" 0 5 (by norm_num)).2.2.1,
    (constructed_monitor_initial_behaviour 1 10 20 30 "tp" 0 5
      (by norm_num)).2.2.2.1 (by norm_num) 1 1,
    ((constructed_monitor_initial_behaviour 1 10 20 30 "tp" 0 15
      (by norm_num)).2.2.2.2 (by norm_num) 1 1).1⟩

/-- Dispatch preserves the number of registered monitors. -/
lemma on_message_length (ps : List PhaseDaemon) (topic : String) (payload : ℚ)
    (clock : Nat → ℚ × ℚ) :
    (on_message ps topic payload clock).1.length = ps.length := by
  induction ps generalizing clock with
  | nil => rfl
  | cons p rest ih =>
      simp only [on_message, List.length_cons]
      rw [ih (fun n => clock (n + 1))]

/-- Position-wise characterization of `on_message`: the monitor at
position `i` is updated by `on_reading` (with its own clock reads) iff
its topic matches, independently of how many earlier monitors matched. -/
lemma on_message_get? (ps : List PhaseDaemon) (topic : String) (payload : ℚ)
    (clock : Nat → ℚ × ℚ) (i : Nat) :
    (on_message ps topic payload clock).1.get? i =
      (ps.get? i).map fun p =>
        if p.topic = topic
        then (on_reading p payload (clock i).1 (clock i).2).1
        else p := by
  induction ps generalizing clock i with
  | nil => simp [on_message]
  | cons p rest ih =>
      cases i with
      | zero =>
          simp only [on_message, List.get?]
          split_ifs with hp <;> simp [hp]
      | succ n =>
          simp only [on_message, List.get?]
          rw [ih (fun n => clock (n + 1)) n]

/-- Claim C10: dispatch delivers a matching reading to every registered
monitor whose topic equals the identifier, not only the first match — the
monitor list keeps its length, the monitor at each position is updated
exactly when its topic matches, and when two monitors share the incoming
topic both process the reading, in registration order. -/
theorem dispatch_reaches_every_match (ps : List PhaseDaemon) (topic : String)
    (payload : ℚ) (clock : Nat → ℚ × ℚ) :
    (on_message ps topic payload clock).1.length = ps.length
    ∧ (∀ i : Nat, (on_message ps topic payload clock).1.get? i =
        (ps.get? i).map fun p =>
          if p.topic = topic
          then (on_reading p payload (clock i).1 (clock i).2).1
          else p)
    ∧ (∀ p q : PhaseDaemon, p.topic = topic → q.topic = topic →
        on_message [p, q] topic payload clock =
          ([(on_reading p payload (clock 0).1 (clock 0).2).1,
            (on_reading q payload (clock 1).1 (clock 1).2).1],
           (on_reading p payload (clock 0).1 (clock 0).2).2 ++
             (on_reading q payload (clock 1).1 (clock 1).2).2)) := by
  refine ⟨on_message_length ps topic payload clock,
    on_message_get? ps topic payload clock,
    fun p q hp hq => ?_⟩
  simp only [on_message]
  rw [if_pos hp, if_pos hq]
  simp

/-- Witness for C10: two monitors sharing topic `"shared"` both process a
25 A reading dispatched to that topic, in registration order. -/
theorem dispatch_reaches_every_match_witness :
    (sharedState.topic = "shared")
    ∧ on_message [sharedState, sharedState] "shared" 25 (fun _ => (0, 0)) =
        ([(on_reading sharedState 25 0 0).1, (on_reading sharedState 25 0 0).1],
         (on_reading sharedState 25 0 0).2 ++ (on_reading sharedState 25 0 0).2) :=
  ⟨rfl,
    (dispatch_reaches_every_match [sharedState, sharedState] "shared" 25
      (fun _ => (0, 0))).2.2 sharedState sharedState rfl rfl⟩

end PowerMonitor
